import Mathlib

/-
Verification of the Alien Invasion game core (alien_invasion.py, settings.py,
ship.py, game_stats.py) via a shallow embedding.

Two layers are used:
* a structural layer (records `Settings`, `Ship`, `GState`) for the simulation
  logic: fleet layout, firing, fleet direction, the per-frame invader update;
* a Python attribute-level layer (`Attrs`, `PyVal`, `PyError`) for code whose
  behaviour hinges on Python attribute lookup: `game_stats.py` defines an
  initializer named `__init` (not `__init__`) and assigns `ships_lef`
  (not `ships_left`), and `settings.py` defines neither `alien_points` nor
  `increase_speed`, so several code paths raise rather than run.

Pieces of the repository that are imported by alien_invasion.py but whose
files are not available under src (bullet.py, alien.py, scoreboard.py) are
modelled from the spec; each such definition is marked.
-/

namespace AlienInvasion

/-- A pygame `Rect`: integer position and size. -/
structure Rect where
  x : Int
  y : Int
  w : Int
  h : Int

/-- pygame `Rect.colliderect`: the rectangles overlap (strict comparisons, so
touching edges and zero-size rectangles do not collide). -/
def Rect.collide (a b : Rect) : Bool :=
  decide (a.x < b.x + b.w) && decide (a.y < b.y + b.h) &&
  decide (b.x < a.x + a.w) && decide (b.y < a.y + a.h)

/-- The fields assigned in `Settings.__init__` (settings.py lines 16-38).
The two float-valued settings are represented as rationals. -/
structure Settings where
  screen_width : Int
  screen_height : Int
  bg_color : Int × Int × Int
  ship_speed : Int
  ship_limit : Nat
  bullet_speed : Rat
  bullet_width : Int
  bullet_height : Int
  bullet_color : Int × Int × Int
  bullets_allowed : Nat
  alien_speed : Rat
  fleet_drop_speed : Int
  fleet_direction : Int

/-- The values assigned in `Settings.__init__`. -/
def initSettings : Settings :=
  { screen_width := 800
    screen_height := 600
    bg_color := (40, 160, 200)
    ship_speed := 3
    ship_limit := 3
    bullet_speed := 5 / 2
    bullet_width := 3
    bullet_height := 15
    bullet_color := (60, 60, 60)
    bullets_allowed := 3
    alien_speed := 2
    fleet_drop_speed := 10
    fleet_direction := 1 }

/-- The player ship (ship.py). `Ship.__init__` sets only `moving_right`;
`moving_left` is created later by the key-event handlers, so it is carried
here as an ordinary field. -/
structure Ship where
  rect : Rect
  moving_right : Bool
  moving_left : Bool

/-- `Ship.update` (ship.py lines 20-23): `if self.moving_right is True:
self.rect.x += 1`. Nothing else: the method reads neither `moving_left`
nor `settings.ship_speed`. -/
def Ship.update (s : Ship) : Ship :=
  if s.moving_right then { s with rect := { s.rect with x := s.rect.x + 1 } } else s

/-- Inner while loop of `_create_fleet` (alien_invasion.py line 275-277):
`while current_x < screen_width - 2 * alien_width: create alien; x += 2w`.
The `0 < w` conjunct makes the recursion well-founded; it is exactly the
condition under which the Python loop terminates (for `w ≤ 0` the loop
either does not run, which the conjunct preserves since then `x < W - 2w`
can only hold by never increasing `x`, or runs forever). All theorems below
assume `0 < w`. -/
def fleetCols (W w y x : Int) : List (Int × Int) :=
  if h : 0 < w ∧ x < W - 2 * w then
    (x, y) :: fleetCols W w y (x + 2 * w)
  else
    []
termination_by (W - 2 * w - x).toNat
decreasing_by
  simp_wf
  obtain ⟨h1, h2⟩ := h
  omega

/-- Outer while loop of `_create_fleet` (alien_invasion.py lines 274-281):
`while current_y < screen_height - 14 * alien_height:` run a row starting at
`current_x = alien_width`, then `current_y += 2 * alien_height`. As in
`fleetCols`, the `0 < h` conjunct carries the loop's termination. -/
def fleetRows (W H w h y : Int) : List (Int × Int) :=
  if hy : 0 < h ∧ y < H - 14 * h then
    fleetCols W w y w ++ fleetRows W H w h (y + 2 * h)
  else
    []
termination_by (H - 14 * h - y).toNat
decreasing_by
  simp_wf
  obtain ⟨h1, h2⟩ := hy
  omega

/-- `_create_fleet` (alien_invasion.py lines 267-281), as the list of
`(rect.x, rect.y)` positions handed to `_create_alien`: starting offsets
`current_x = alien_width`, `current_y = alien_height + 22`. The alien box
size `(w, h)` is a parameter (alien.py, which fixes it from the loaded
image, is not under src). -/
def createFleet (W H w h : Int) : List (Int × Int) :=
  fleetRows W H w h (h + 22)

/-- An alien invader. Modelled from the spec: alien.py is not under src;
per spec section 3 an invader has a floating-point x alongside its integer
rect. -/
structure Alien where
  x : Rat
  rect : Rect

/-- Python `int()` truncation toward zero, used when a float position is
stored back into an integer rect coordinate. -/
def ratTrunc (q : Rat) : Int :=
  Int.tdiv q.num q.den

/-- Modelled from the spec: alien.py is not under src; spec section 4.2
step 2: every invader moves by `alien_speed × fleet_direction` along x,
and the rect tracks the truncated float position. -/
def Alien.update (s : Settings) (a : Alien) : Alien :=
  let nx := a.x + s.alien_speed * (s.fleet_direction : Rat)
  { x := nx, rect := { a.rect with x := ratTrunc nx } }

/-- Modelled from the spec: alien.py is not under src; spec section 4.2
step 1: an invader is at an edge when its right edge is at or beyond the
screen width or its left edge is at or below 0. -/
def Alien.checkEdges (W : Int) (a : Alien) : Bool :=
  decide (W ≤ a.rect.x + a.rect.w) || decide (a.rect.x ≤ 0)

/-- A live projectile, recorded by its top-center position. Modelled from
the spec: bullet.py is not under src; spec section 4.4 constructs each
Projectile at the ship's current top-center. -/
structure Bullet where
  x : Int
  y : Int

/-- Modelled from the spec: bullet.py is not under src; the new Projectile
sits at the ship's current top-center (the midtop of the ship's rect). -/
def newBullet (ship : Ship) : Bullet :=
  { x := ship.rect.x + ship.rect.w / 2, y := ship.rect.y }

/-- The structural game state: the fields of `AlienInvasion` that the
simulation logic reads and writes. `shipsLeft` is the session statistic the
handlers address as `stats.ships_left` (game_stats.py actually misnames both
its initializer and this attribute; that defect is analysed separately at
the Python attribute level below). `alienW`/`alienH` carry the alien
bounding-box size, a parameter here since alien.py is not under src. -/
structure GState where
  settings : Settings
  shipsLeft : Nat
  ship : Ship
  bullets : List Bullet
  aliens : List Alien
  gameActive : Bool
  alienW : Int
  alienH : Int

/-- `_fire_bullet` (alien_invasion.py lines 185-189): add one new bullet
only while `len(self.bullets) < self.settings.bullets_allowed`. -/
def fireBullet (st : GState) : GState :=
  if st.bullets.length < st.settings.bullets_allowed then
    { st with bullets := newBullet st.ship :: st.bullets }
  else
    st

/-- `_change_fleet_direction` (alien_invasion.py lines 298-302): drop every
alien rect by `fleet_drop_speed` and multiply `fleet_direction` by -1. -/
def changeFleetDirection (st : GState) : GState :=
  { st with
    aliens := st.aliens.map fun a =>
      { a with rect := { a.rect with y := a.rect.y + st.settings.fleet_drop_speed } }
    settings := { st.settings with fleet_direction := st.settings.fleet_direction * -1 } }

/-- Modelled from the spec: recenter the ship at the bottom center of the
screen (spec sections 3 and 4.3). ship.py under src has no `center_ship`
method; that defect is part of the C1 analysis below, and the faithful
`_ship_hit` embeddings reach this function only in the dead branch where
the method would exist. -/
def centerShip (s : Settings) (sh : Ship) : Ship :=
  { sh with rect := { sh.rect with
      x := s.screen_width / 2 - sh.rect.w / 2
      y := s.screen_height - sh.rect.h } }

/-- Reachability of the fleet-direction state, as scoped by the claim:
`fleet_direction` starts at 1 (`Settings.__init__`) and is mutated only by
`_change_fleet_direction`. -/
inductive ReachFD : GState → Prop where
  | base : ∀ st : GState, st.settings.fleet_direction = 1 → ReachFD st
  | step : ∀ st : GState, ReachFD st → ReachFD (changeFleetDirection st)

/-- Errors raised by the Python attribute protocol on the paths analysed
here. -/
inductive PyError where
  | typeError
  | attributeError
deriving DecidableEq

/-- Values stored in instance attributes on those paths: ints, floats
(as rationals), 3-tuples, and a reference to the game's one `Settings`
instance. -/
inductive PyVal where
  | int : Int → PyVal
  | rat : Rat → PyVal
  | triple : Int → Int → Int → PyVal
  | settingsRef : PyVal
deriving DecidableEq

/-- A Python instance's attribute dictionary; assignment shadows by
consing. -/
def Attrs : Type := List (String × PyVal)

/-- Attribute load: the most recent binding of the name, if any. -/
def getA (o : Attrs) (a : String) : Option PyVal :=
  (List.find? (fun kv => kv.1 == a) o).map fun kv => kv.2

/-- Attribute store. -/
def setA (o : Attrs) (a : String) (v : PyVal) : Attrs :=
  (a, v) :: o

/-- The method names `class GameStats` defines (game_stats.py): the
initializer is misspelled `__init`, so the class has no `__init__`. -/
def gameStatsMethods : List String := ["__init", "reset_stats"]

/-- The method names `class Settings` defines (settings.py): only
`__init__`; there is no `increase_speed` and no
`initialize_dynamic_settings`. -/
def settingsMethods : List String := ["__init__"]

/-- The method names `class Ship` defines (ship.py): there is no
`center_ship`. -/
def shipMethods : List String := ["__init__", "update", "blitme"]

/-- Instance-attribute lookup on the `Settings` object, from the
assignments in `Settings.__init__` (settings.py lines 16-38). In
particular `alien_points` is not among them. -/
def settingsAttr (a : String) : Option PyVal :=
  if a = "screen_width" then some (PyVal.int 800)
  else if a = "screen_height" then some (PyVal.int 600)
  else if a = "bg_color" then some (PyVal.triple 40 160 200)
  else if a = "ship_speed" then some (PyVal.int 3)
  else if a = "ship_limit" then some (PyVal.int 3)
  else if a = "bullet_speed" then some (PyVal.rat (5 / 2))
  else if a = "bullet_width" then some (PyVal.int 3)
  else if a = "bullet_height" then some (PyVal.int 15)
  else if a = "bullet_color" then some (PyVal.triple 60 60 60)
  else if a = "bullets_allowed" then some (PyVal.int 3)
  else if a = "alien_speed" then some (PyVal.rat 2)
  else if a = "fleet_drop_speed" then some (PyVal.int 10)
  else if a = "fleet_direction" then some (PyVal.int 1)
  else none

/-- `GameStats.reset_stats` (game_stats.py lines 15-17):
`self.ships_lef = self.settings.ship_limit`. It reads `self.settings`
(a reference to the game's Settings instance, set by the misnamed
initializer when called explicitly) and assigns the name `ships_lef` -
and nothing else. -/
def resetStats (o : Attrs) : Except PyError Attrs :=
  match getA o "settings" with
  | some PyVal.settingsRef =>
    match settingsAttr "ship_limit" with
    | some v => Except.ok (setA o "ships_lef" v)
    | none => Except.error PyError.attributeError
  | some _ => Except.error PyError.attributeError
  | none => Except.error PyError.attributeError

/-- The construction `GameStats(self)` (alien_invasion.py line 97). Python
calls the class's `__init__` with the argument; `GameStats` defines none
(only `__init` and `reset_stats`), so `object.__init__` receives an
unexpected argument and raises `TypeError`. Had the initializer been named
`__init__`, its body would set `self.settings` and call `reset_stats`. -/
def gameStatsNew : Except PyError Attrs :=
  if "__init__" ∈ gameStatsMethods then
    resetStats (setA [] "settings" PyVal.settingsRef)
  else
    Except.error PyError.typeError

/-- The game state at the Python attribute level: the stats object is an
attribute dictionary, bullets and aliens are rects; `alienW`/`alienH` carry
the alien box size (alien.py not under src). -/
structure PyState where
  stats : Attrs
  bullets : List Rect
  aliens : List Rect
  gameActive : Bool
  alienW : Int
  alienH : Int

/-- The fleet `_create_fleet` builds, as rects, on the 800 x 600 screen of
`Settings.__init__`. -/
def pyFleetRects (w h : Int) : List Rect :=
  (createFleet 800 600 w h).map fun p => { x := p.1, y := p.2, w := w, h := h }

/-- `_ship_hit` (alien_invasion.py lines 226-245) at the attribute level.
The guard `if self.stats.ships_left > 0:` loads the attribute
`ships_left`; in the positive branch, after the mutations, the call
`self.ship.center_ship()` looks up a `center_ship` method on `Ship`.
An `Except.error` result models the exception propagating out (partial
mutations made before the raise are lost with the crashing frame). -/
def shipHitPy (st : PyState) : Except PyError PyState :=
  match getA st.stats "ships_left" with
  | none => Except.error PyError.attributeError
  | some (PyVal.int n) =>
    if 0 < n then
      -- decrement ships_left; scoreboard.prep_ships() draws only;
      -- bullets.empty(); aliens.empty(); _create_fleet(); then center_ship
      if "center_ship" ∈ shipMethods then
        Except.ok { st with
          stats := setA st.stats "ships_left" (PyVal.int (n - 1))
          bullets := []
          aliens := pyFleetRects st.alienW st.alienH }
      else
        Except.error PyError.attributeError
    else
      Except.ok { st with gameActive := false }
  | some _ => Except.error PyError.typeError

/-- `pygame.sprite.groupcollide(bullets, aliens, True, True)`: walk the
bullets in order; each bullet collects (and removes) the aliens its rect
overlaps; bullets that hit something are removed and recorded with their
victims. Returns (collision dict as a list, surviving bullets, surviving
aliens). -/
def groupcollide : List Rect → List Rect → List (Rect × List Rect) × List Rect × List Rect
  | [], als => ([], [], als)
  | b :: bs, als =>
    let hit := als.filter fun a => Rect.collide b a
    let miss := als.filter fun a => !(Rect.collide b a)
    let r := groupcollide bs miss
    if hit.isEmpty then
      (r.1, b :: r.2.1, r.2.2)
    else
      ((b, hit) :: r.1, r.2.1, r.2.2)

/-- Modelled from the spec: scoreboard.py is not under src; spec section
4.2 step 4: `check_high_score` reads the session's score and high score and
raises the high score when exceeded. On the stats object the code actually
builds, both loads fail. -/
def checkHighScorePy (stats : Attrs) : Except PyError Attrs :=
  match getA stats "score" with
  | none => Except.error PyError.attributeError
  | some (PyVal.int sc) =>
    match getA stats "high_score" with
    | none => Except.error PyError.attributeError
    | some (PyVal.int hi) =>
      Except.ok (if hi < sc then setA stats "high_score" (PyVal.int sc) else stats)
    | some _ => Except.error PyError.typeError
  | some _ => Except.error PyError.typeError

/-- The wave-clear tail of `_check_bullet_alien_collisions`
(alien_invasion.py lines 216-224): `if not self.aliens:` empty the bullets,
recreate the fleet (`Settings.__init__` fixes the screen at 800 x 600),
then call `self.settings.increase_speed()` - a method `Settings` does not
define - and only afterwards increment `self.stats.level`. -/
def waveClearPy (st : PyState) : Except PyError PyState :=
  if st.aliens.isEmpty then
    let st1 : PyState :=
      { st with bullets := [], aliens := pyFleetRects st.alienW st.alienH }
    if "increase_speed" ∈ settingsMethods then
      match getA st1.stats "level" with
      | none => Except.error PyError.attributeError
      | some (PyVal.int lv) =>
        Except.ok { st1 with stats := setA st1.stats "level" (PyVal.int (lv + 1)) }
      | some _ => Except.error PyError.typeError
    else
      Except.error PyError.attributeError
  else
    Except.ok st

/-- `_check_bullet_alien_collisions` (alien_invasion.py lines 203-224) at
the attribute level. When the collision dict is non-empty, the loop body
`self.stats.score += self.settings.alien_points * len(aliens)` first loads
`self.stats.score`, then `self.settings.alien_points`; with both loads
satisfied it would accumulate the score over the dict, let the scoreboard
check the high score, and fall through to the wave-clear check. -/
def checkBulletAlienCollisionsPy (st : PyState) : Except PyError PyState :=
  let r := groupcollide st.bullets st.aliens
  let st1 : PyState := { st with bullets := r.2.1, aliens := r.2.2 }
  if r.1.isEmpty then
    waveClearPy st1
  else
    match getA st1.stats "score" with
    | none => Except.error PyError.attributeError
    | some (PyVal.int sc0) =>
      match settingsAttr "alien_points" with
      | none => Except.error PyError.attributeError
      | some (PyVal.int pts) =>
        let sc1 := r.1.foldl (fun acc e => acc + pts * (e.2.length : Int)) sc0
        let stats1 := setA st1.stats "score" (PyVal.int sc1)
        -- scoreboard.prep_score() draws only; then check_high_score()
        match checkHighScorePy stats1 with
        | Except.error e => Except.error e
        | Except.ok stats2 => waveClearPy { st1 with stats := stats2 }
      | some _ => Except.error PyError.typeError
    | some _ => Except.error PyError.typeError

/-- A ship resting at the bottom of the 800 x 600 screen, no movement
flags. -/
def ship0 : Ship :=
  { rect := { x := 370, y := 552, w := 60, h := 48 }, moving_right := false, moving_left := false }

/-- A ship at x = 100 with the moving-right flag set. -/
def shipA : Ship :=
  { rect := { x := 100, y := 552, w := 60, h := 48 }, moving_right := true, moving_left := false }

/-- A ship at x = 100 with the moving-left flag set. -/
def shipB : Ship :=
  { rect := { x := 100, y := 552, w := 60, h := 48 }, moving_right := false, moving_left := true }

/-- A fresh structural state: initial settings, 3 ships, no bullets, no
aliens, alien box 20 x 15. -/
def gst0 : GState :=
  { settings := initSettings, shipsLeft := 3, ship := ship0, bullets := [], aliens := [],
    gameActive := true, alienW := 20, alienH := 15 }

/-- The same state already holding `bullets_allowed` (= 3) live bullets. -/
def gst3 : GState :=
  { gst0 with bullets := [{ x := 400, y := 300 }, { x := 400, y := 200 }, { x := 400, y := 100 }] }

/-- The attribute dictionary `reset_stats` would leave on a stats object
whose `settings` was set: only `settings` and the misspelled `ships_lef`. -/
def statsAsReset : Attrs :=
  setA (setA [] "settings" PyVal.settingsRef) "ships_lef" (PyVal.int 3)

/-- Attribute-level state at a ship hit: stats as the code builds them. -/
def pyStA : PyState :=
  { stats := statsAsReset, bullets := [], aliens := [{ x := 370, y := 540, w := 20, h := 15 }],
    gameActive := true, alienW := 20, alienH := 15 }

/-- The same hit state with stats patched to hold the intended
`ships_left = 3`, isolating the missing `Ship.center_ship`. -/
def pyStB : PyState :=
  { pyStA with stats := setA [] "ships_left" (PyVal.int 3) }

/-- Attribute-level state with one bullet overlapping one alien. -/
def pyStC2 : PyState :=
  { stats := statsAsReset, bullets := [{ x := 10, y := 10, w := 3, h := 15 }],
    aliens := [{ x := 8, y := 8, w := 20, h := 15 }], gameActive := true,
    alienW := 20, alienH := 15 }

/-- Attribute-level state in which the invader collection is empty. -/
def pyStC3 : PyState :=
  { stats := statsAsReset, bullets := [], aliens := [], gameActive := true,
    alienW := 20, alienH := 15 }

/-- The state one frame of `_update_aliens` reads and writes, with the
stats object kept as its attribute dictionary (so the `ships_left` load
can fail exactly as in game_stats.py). Of the Settings fields only
`fleet_direction` is mutated within the frame (`_change_fleet_direction`);
it is carried here as `settingsFD`, the immutable fields being read from
`initSettings`. `alienW`/`alienH` are the alien box size (alien.py not
under src). -/
structure FrameState where
  stats : Attrs
  settingsFD : Int
  ship : Ship
  bullets : List Rect
  aliens : List Alien
  gameActive : Bool
  alienW : Int
  alienH : Int

/-- `_change_fleet_direction` (alien_invasion.py lines 298-302) over the
frame state: drop every alien rect by `fleet_drop_speed` and multiply the
fleet direction by -1. -/
def frChangeFleetDirection (st : FrameState) : FrameState :=
  { st with
    aliens := st.aliens.map fun a =>
      { a with rect := { a.rect with y := a.rect.y + initSettings.fleet_drop_speed } }
    settingsFD := st.settingsFD * -1 }

/-- `_check_fleet_edges` (alien_invasion.py lines 291-296): if any alien is
at an edge (edge test from the spec, alien.py being absent), change
direction once - the loop breaks after the first such alien. -/
def frCheckFleetEdges (st : FrameState) : FrameState :=
  if st.aliens.any (Alien.checkEdges initSettings.screen_width) then
    frChangeFleetDirection st
  else
    st

/-- The `self.aliens.update()` phase of `_update_aliens`. Modelled from the
spec for alien.py: each invader moves by `alien_speed × fleet_direction`
along x, the speed from `Settings.__init__` and the direction the frame's
current value. -/
def frMotion (st : FrameState) : FrameState :=
  { st with aliens :=
      st.aliens.map (Alien.update { initSettings with fleet_direction := st.settingsFD }) }

/-- The fleet `_create_fleet` builds, as `Alien` values (`_create_alien`
sets `new_alien.x`, `rect.x` and `rect.y` to the grid position), on the
screen of `Settings.__init__`. -/
def frFleet (w h : Int) : List Alien :=
  (createFleet initSettings.screen_width initSettings.screen_height w h).map
    fun p => { x := (p.1 : Rat), rect := { x := p.1, y := p.2, w := w, h := h } }

/-- `_ship_hit` (alien_invasion.py lines 226-245), faithful to src,
returning the state at exit together with the exception that propagates,
if any (Python mutations made before a raise persist on the objects).
The guard loads `self.stats.ships_left`; in the positive branch the
decrement, the emptied collections and the recreated fleet happen, and
then `self.ship.center_ship()` is looked up on `Ship` - which defines no
such method, so the frame aborts there with AttributeError. The branch in
which the method exists (and the 0.5 s sleep would follow) is dead. -/
def frShipHit (st : FrameState) : FrameState × Option PyError :=
  match getA st.stats "ships_left" with
  | none => (st, some PyError.attributeError)
  | some (PyVal.int n) =>
    if 0 < n then
      if "center_ship" ∈ shipMethods then
        ({ st with
            stats := setA st.stats "ships_left" (PyVal.int (n - 1))
            bullets := []
            aliens := frFleet st.alienW st.alienH
            ship := centerShip initSettings st.ship }, none)
      else
        ({ st with
            stats := setA st.stats "ships_left" (PyVal.int (n - 1))
            bullets := []
            aliens := frFleet st.alienW st.alienH }, some PyError.attributeError)
    else
      ({ st with gameActive := false }, none)
  | some _ => (st, some PyError.typeError)

/-- `pygame.sprite.spritecollideany(self.ship, self.aliens)`: some alien
rect overlaps the ship rect. -/
def frShipCollision (st : FrameState) : Bool :=
  st.aliens.any fun a => Rect.collide st.ship.rect a.rect

/-- The ship-collision step of `_update_aliens` (alien_invasion.py lines
252-254): call `_ship_hit` when an alien overlaps the ship. -/
def frCollisionStep (st : FrameState) : FrameState × Option PyError :=
  if frShipCollision st then frShipHit st else (st, none)

/-- `_check_aliens_bottom` (alien_invasion.py lines 259-265): the loop
calls `_ship_hit` for the first alien whose rect bottom reaches the screen
height, then breaks, so it fires at most once. -/
def frCheckAliensBottom (st : FrameState) : FrameState × Option PyError :=
  if st.aliens.any (fun a => initSettings.screen_height ≤ a.rect.y + a.rect.h) then
    frShipHit st
  else
    (st, none)

/-- `_update_aliens` (alien_invasion.py lines 247-257): fleet-edge check,
alien motion, the ship-collision check, then the aliens-at-bottom check.
An exception raised in the collision step propagates, aborting the frame
before `_check_aliens_bottom` runs. -/
def frUpdateAliens (st : FrameState) : FrameState × Option PyError :=
  if (frCollisionStep (frMotion (frCheckFleetEdges st))).2.isSome then
    frCollisionStep (frMotion (frCheckFleetEdges st))
  else
    frCheckAliensBottom (frCollisionStep (frMotion (frCheckFleetEdges st))).1

/-- A frame state whose stats hold `ships_left = 3` and whose single alien
both overlaps the ship and reaches the screen bottom after this frame's
motion: both hit conditions of the claim occur at once. -/
def frStA : FrameState :=
  { stats := setA [] "ships_left" (PyVal.int 3)
    settingsFD := 1
    ship := ship0
    bullets := []
    aliens := [{ x := 370, rect := { x := 370, y := 585, w := 20, h := 15 } }]
    gameActive := true
    alienW := 20
    alienH := 15 }

/-- The same double-hit geometry with `ships_left = 0`. -/
def frStB : FrameState :=
  { frStA with stats := setA [] "ships_left" (PyVal.int 0) }

/-- The alien of `frStA`/`frStB` after this frame's motion: x advanced by
`alien_speed × fleet_direction` = 2.0 × 1. -/
def alienMoved : Alien :=
  { x := 372, rect := { x := 372, y := 585, w := 20, h := 15 } }

/-- Membership in one row: exactly the points `(x + 2w·i, y)` with
`x + 2w·i < W - 2w`. -/
theorem mem_fleetCols (W w y : Int) (hw : 0 < w) (x : Int) (p : Int × Int) :
    p ∈ fleetCols W w y x ↔
      ∃ i : Nat, p = (x + 2 * w * i, y) ∧ x + 2 * w * i < W - 2 * w := by
  induction x using fleetCols.induct W w y with
  | case1 x h ih =>
    rw [fleetCols, dif_pos h, List.mem_cons, ih]
    constructor
    · rintro (rfl | ⟨i, rfl, hlt⟩)
      · exact ⟨0, by simp, by simpa using h.2⟩
      · refine ⟨i + 1, ?_, ?_⟩
        · simp only [Prod.mk.injEq, and_true]
          push_cast
          ring
        · push_cast at hlt ⊢
          linarith
    · rintro ⟨i, rfl, hlt⟩
      cases i with
      | zero => left; simp
      | succ k =>
        right
        refine ⟨k, ?_, ?_⟩
        · simp only [Prod.mk.injEq, and_true]
          push_cast
          ring
        · push_cast at hlt ⊢
          linarith
  | case2 x h =>
    rw [fleetCols, dif_neg h]
    simp only [List.not_mem_nil, false_iff, not_exists, not_and]
    intro i hp hlt
    have hx : ¬ x < W - 2 * w := fun hc => h ⟨hw, hc⟩
    have hnn : (0 : Int) ≤ 2 * w * i := by positivity
    linarith

/-- Membership in the whole nested loop from starting row y: exactly the
grid points `(w + 2w·i, y + 2h·j)` inside the column and row bounds. -/
theorem mem_fleetRows (W H w h : Int) (hw : 0 < w) (hh : 0 < h) (y : Int) (p : Int × Int) :
    p ∈ fleetRows W H w h y ↔
      ∃ i j : Nat, p = (w + 2 * w * i, y + 2 * h * j) ∧
        w + 2 * w * i < W - 2 * w ∧ y + 2 * h * j < H - 14 * h := by
  induction y using fleetRows.induct W H w h with
  | case1 y hy ih =>
    rw [fleetRows, dif_pos hy, List.mem_append, mem_fleetCols W w y hw, ih]
    constructor
    · rintro (⟨i, rfl, hci⟩ | ⟨i, j, rfl, hci, hcj⟩)
      · exact ⟨i, 0, by simp, hci, by simpa using hy.2⟩
      · refine ⟨i, j + 1, ?_, hci, ?_⟩
        · simp only [Prod.mk.injEq, true_and]
          push_cast
          ring
        · push_cast at hcj ⊢
          linarith
    · rintro ⟨i, j, rfl, hci, hcj⟩
      cases j with
      | zero => left; exact ⟨i, by simp, hci⟩
      | succ k =>
        right
        refine ⟨i, k, ?_, hci, ?_⟩
        · simp only [Prod.mk.injEq, true_and]
          push_cast
          ring
        · push_cast at hcj ⊢
          linarith
  | case2 y hy =>
    rw [fleetRows, dif_neg hy]
    simp only [List.not_mem_nil, false_iff, not_exists, not_and]
    intro i j hp hci hcj
    have hyb : ¬ y < H - 14 * h := fun hc => hy ⟨hh, hc⟩
    have hnn : (0 : Int) ≤ 2 * h * j := by positivity
    linarith

/-- C1: the claim says `_ship_hit` decrements `ships_left`, clears the
collections, recreates the fleet and recenters the ship (or, at zero ships,
deactivates the game). The code cannot do any of it: the guard's load of
`self.stats.ships_left` raises AttributeError on the stats object the code
builds (only `ships_lef` is ever assigned, and `GameStats(self)` itself
raises TypeError), and even on a stats object patched to hold
`ships_left = 3` the positive branch raises AttributeError at
`self.ship.center_ship()`, a method `Ship` does not define. -/
theorem ship_hit_handler_crashes :
    shipHitPy pyStA = Except.error PyError.attributeError ∧
      shipHitPy pyStB = Except.error PyError.attributeError :=
  ⟨rfl, rfl⟩

/-- C2: the claim says colliding pairs are removed and the score grows by
`alien_points` per invader destroyed. The removal happens, but on any
non-empty collision dict the scoring line raises AttributeError: the stats
object has no `score` attribute and `Settings.__init__` assigns no
`alien_points`. Evaluated at a state with one bullet overlapping one
alien. -/
theorem bullet_alien_collision_crashes :
    checkBulletAlienCollisionsPy pyStC2 = Except.error PyError.attributeError :=
  rfl

/-- C3: the claim says emptying the invader collection triggers one fleet
recreation, one speed increase and a level increment. The code empties the
bullets and recreates the fleet, then raises AttributeError calling
`self.settings.increase_speed()` - `Settings` defines no such method - so
no speed increase or level increment ever happens. Evaluated at a state
with no aliens. -/
theorem wave_clear_crashes :
    checkBulletAlienCollisionsPy pyStC3 = Except.error PyError.attributeError :=
  rfl

/-- C4: `_fire_bullet` adds exactly one new bullet, at the ship's current
top-center, while the live count is below `bullets_allowed`, and is an
unchanged-state no-op when the count has reached `bullets_allowed`. -/
theorem fire_bullet_spec (st : GState) :
    (st.bullets.length < st.settings.bullets_allowed →
      (fireBullet st).bullets = newBullet st.ship :: st.bullets) ∧
      (st.bullets.length = st.settings.bullets_allowed → fireBullet st = st) := by
  constructor
  · intro h
    unfold fireBullet
    rw [if_pos h]
  · intro h
    unfold fireBullet
    rw [if_neg (by omega)]

/-- Witness for C4: firing with 0 of 3 bullets adds one; firing with 3 of 3
leaves the state unchanged. -/
theorem fire_bullet_spec_witness :
    (gst0.bullets.length < gst0.settings.bullets_allowed ∧
      (fireBullet gst0).bullets = newBullet gst0.ship :: gst0.bullets) ∧
      gst3.bullets.length = gst3.settings.bullets_allowed ∧ fireBullet gst3 = gst3 :=
  ⟨⟨by decide, (fire_bullet_spec gst0).1 (by decide)⟩,
    by decide, (fire_bullet_spec gst3).2 (by decide)⟩

/-- C5: in every state reachable from a fleet direction of 1 (the
`Settings.__init__` value) under `_change_fleet_direction` (the only code
that mutates it), the fleet direction is 1 or -1. -/
theorem fleet_direction_invariant (st : GState) (h : ReachFD st) :
    st.settings.fleet_direction = 1 ∨ st.settings.fleet_direction = -1 := by
  induction h with
  | base st h1 => exact Or.inl h1
  | step st h ih =>
    have hflip : (changeFleetDirection st).settings.fleet_direction =
        st.settings.fleet_direction * -1 := rfl
    rcases ih with h1 | h1
    · right
      rw [hflip, h1]
      norm_num
    · left
      rw [hflip, h1]
      norm_num

/-- Witness for C5: the state after one direction change from the initial
state is reachable and its direction is ±1. -/
theorem fleet_direction_invariant_witness :
    (changeFleetDirection gst0).settings.fleet_direction = 1 ∨
      (changeFleetDirection gst0).settings.fleet_direction = -1 :=
  fleet_direction_invariant (changeFleetDirection gst0)
    (ReachFD.step gst0 (ReachFD.base gst0 (by decide)))

/-- C6: `_create_fleet` produces exactly the grid with starting offsets
`x = w`, `y = h + 22`, steps `2w` and `2h`, columns while
`x < screen_width - 2w` and rows while `y < screen_height - 14h`. The
characterisation pins the layout as a function of the inputs, so two calls
with identical Configuration and alien box give identical fleets. -/
theorem create_fleet_grid (W H w h : Int) (hw : 0 < w) (hh : 0 < h) (p : Int × Int) :
    p ∈ createFleet W H w h ↔
      ∃ i j : Nat, p = (w + 2 * w * i, h + 22 + 2 * h * j) ∧
        w + 2 * w * i < W - 2 * w ∧ h + 22 + 2 * h * j < H - 14 * h := by
  unfold createFleet
  exact mem_fleetRows W H w h hw hh (h + 22) p

/-- Witness for C6: the spec's 800 x 600 screen with a 20 x 15 alien box;
the grid membership characterisation at the first alien position
(20, 37). -/
theorem create_fleet_grid_witness :
    (0 : Int) < 20 ∧ (0 : Int) < 15 ∧
      (((20 : Int), (37 : Int)) ∈ createFleet 800 600 20 15 ↔
        ∃ i j : Nat, ((20 : Int), (37 : Int)) = ((20 : Int) + 2 * 20 * i, (15 : Int) + 22 + 2 * 15 * j) ∧
          (20 : Int) + 2 * 20 * i < 800 - 2 * 20 ∧ (15 : Int) + 22 + 2 * 15 * j < 600 - 14 * 15) :=
  ⟨by norm_num, by norm_num,
    create_fleet_grid 800 600 20 15 (by norm_num) (by norm_num) (20, 37)⟩

/-- C7: the claim says `Ship.update` moves the ship by `±ship_speed` per
movement flag. Evaluated on the code: with the moving-right flag set the
ship moves by exactly +1 (not the Configuration `ship_speed`, which is 3),
and with the moving-left flag set `Ship.update` is the identity - the
method never reads `moving_left` or `ship_speed`. -/
theorem ship_update_diverges :
    shipA.moving_right = true ∧ (Ship.update shipA).rect.x = shipA.rect.x + 1 ∧
      initSettings.ship_speed = 3 ∧ (Ship.update shipA).rect.x = 101 ∧
      shipB.moving_left = true ∧ Ship.update shipB = shipB :=
  ⟨rfl, rfl, rfl, rfl, rfl, rfl⟩

/-- C8: for positive alien box dimensions the nested loop of
`_create_fleet` terminates (the embedding's recursion is well-founded on
the remaining row/column span), and in the degenerate case where no grid
cell fits - the first row starts at or past the row bound, or the first
column starts at or past the column bound - it returns an empty fleet. -/
theorem create_fleet_degenerate (W H w h : Int) (hw : 0 < w) (hh : 0 < h)
    (hdeg : H - 14 * h ≤ h + 22 ∨ W - 2 * w ≤ w) :
    createFleet W H w h = [] := by
  rw [List.eq_nil_iff_forall_not_mem]
  intro p hp
  unfold createFleet at hp
  rw [mem_fleetRows W H w h hw hh (h + 22) p] at hp
  obtain ⟨i, j, rfl, hci, hcj⟩ := hp
  have hi : (0 : Int) ≤ 2 * w * i := by positivity
  have hj : (0 : Int) ≤ 2 * h * j := by positivity
  rcases hdeg with hd | hd
  · linarith
  · linarith

/-- Witness for C8: a 50 x 100 screen with a 20 x 15 alien box fits no
grid cell, and the fleet comes back empty. -/
theorem create_fleet_degenerate_witness :
    (0 : Int) < 20 ∧ (0 : Int) < 15 ∧
      ((100 : Int) - 14 * 15 ≤ 15 + 22 ∨ (50 : Int) - 2 * 20 ≤ 20) ∧
      createFleet 50 100 20 15 = [] :=
  ⟨by norm_num, by norm_num, Or.inl (by norm_num),
    create_fleet_degenerate 50 100 20 15 (by norm_num) (by norm_num) (Or.inl (by norm_num))⟩

/-- Storing an attribute makes its load return the stored value. -/
theorem getA_setA_same (o : Attrs) (a : String) (v : PyVal) :
    getA (setA o a v) a = some v := by
  unfold getA setA
  rw [List.find?_cons_of_pos _ (by simp)]
  rfl

/-- The possible outcomes of one `_ship_hit` call for the stats object:
either the stats are untouched (the `ships_left` load failed, the count was
not positive, or the value was not a number), or `ships_left` held a
positive n, was stored as n - 1, and the call aborted with AttributeError
at the missing `Ship.center_ship` - it never returns normally after a
decrement. -/
theorem frShipHit_cases (st : FrameState) :
    (frShipHit st).1.stats = st.stats ∨
      ∃ n : Int, getA st.stats "ships_left" = some (PyVal.int n) ∧ 0 < n ∧
        (frShipHit st).1.stats = setA st.stats "ships_left" (PyVal.int (n - 1)) ∧
        (frShipHit st).2 = some PyError.attributeError := by
  unfold frShipHit
  split
  · left
    rfl
  · next n heq =>
    split
    · next hn =>
      have hcs : ¬ ("center_ship" ∈ shipMethods) := by decide
      rw [if_neg hcs]
      right
      exact ⟨n, heq, hn, rfl, rfl⟩
    · left
      rfl
  · left
    rfl

/-- The same outcome analysis for `_check_aliens_bottom`, which calls
`_ship_hit` at most once. -/
theorem frBottom_cases (st : FrameState) :
    (frCheckAliensBottom st).1.stats = st.stats ∨
      ∃ n : Int, getA st.stats "ships_left" = some (PyVal.int n) ∧ 0 < n ∧
        (frCheckAliensBottom st).1.stats = setA st.stats "ships_left" (PyVal.int (n - 1)) := by
  unfold frCheckAliensBottom
  split
  · rcases frShipHit_cases st with h | ⟨n, h1, h2, h3, _⟩
    · exact Or.inl h
    · exact Or.inr ⟨n, h1, h2, h3⟩
  · exact Or.inl rfl

/-- The edge check and the motion phase never touch the stats object. -/
theorem frMotion_edges_stats (st : FrameState) :
    (frMotion (frCheckFleetEdges st)).stats = st.stats := by
  show (frCheckFleetEdges st).stats = st.stats
  unfold frCheckFleetEdges
  split <;> rfl

/-- The motion phase on `frStA` evaluated: no edge is reached and the alien
advances to x = 372 (rational arithmetic discharged by norm_num, since Rat
operations do not reduce definitionally). -/
theorem frStA_motion :
    frMotion (frCheckFleetEdges frStA) = { frStA with aliens := [alienMoved] } := by
  have h0 : frCheckFleetEdges frStA = frStA := rfl
  rw [h0]
  unfold frMotion frStA alienMoved
  simp only [Alien.update, List.map]
  norm_num [initSettings, ratTrunc]

/-- The motion phase on `frStB` evaluated: same geometry as `frStA`. -/
theorem frStB_motion :
    frMotion (frCheckFleetEdges frStB) = { frStB with aliens := [alienMoved] } := by
  have h0 : frCheckFleetEdges frStB = frStB := rfl
  rw [h0]
  unfold frMotion frStB frStA alienMoved
  simp only [Alien.update, List.map]
  norm_num [initSettings, ratTrunc]

/-- The frame on `frStA` evaluated: the ship-overlap `_ship_hit` stores
`ships_left = 2` and aborts with AttributeError at the missing
`center_ship`, so the bottom check never runs - one decrement despite both
hit conditions holding. -/
theorem frStA_frame :
    getA (frUpdateAliens frStA).1.stats "ships_left" = some (PyVal.int 2) ∧
      (frUpdateAliens frStA).2 = some PyError.attributeError := by
  have hup : frUpdateAliens frStA =
      if (frCollisionStep { frStA with aliens := [alienMoved] }).2.isSome then
        frCollisionStep { frStA with aliens := [alienMoved] }
      else
        frCheckAliensBottom (frCollisionStep { frStA with aliens := [alienMoved] }).1 := by
    unfold frUpdateAliens
    rw [frStA_motion]
  constructor <;> rw [hup] <;> rfl

/-- The frame on `frStB` evaluated: with no ships left, both the
ship-overlap `_ship_hit` and the bottom-check `_ship_hit` take the
non-positive branch; `ships_left` stays 0. -/
theorem frStB_frame :
    getA (frUpdateAliens frStB).1.stats "ships_left" = some (PyVal.int 0) := by
  have hup : frUpdateAliens frStB =
      if (frCollisionStep { frStB with aliens := [alienMoved] }).2.isSome then
        frCollisionStep { frStB with aliens := [alienMoved] }
      else
        frCheckAliensBottom (frCollisionStep { frStB with aliens := [alienMoved] }).1 := by
    unfold frUpdateAliens
    rw [frStB_motion]
  rw [hup]
  rfl

/-- C9: within one frame's `_update_aliens`, faithful to src, `ships_left`
is lowered at most once - for every frame state it is either unchanged or
goes from some positive n to exactly n - 1. A decrementing `_ship_hit`
always aborts the frame with AttributeError at the missing
`Ship.center_ship` before `_check_aliens_bottom` can run, the failed
`ships_left` load aborts before any decrement, and the non-positive branch
decrements nothing even when the overlap and an alien at the bottom are
both detected. The conjuncts evaluate a both-hits state concretely:
with `ships_left = 3` the frame ends with 2 and the propagated
AttributeError; with `ships_left = 0` it ends with 0. -/
theorem update_aliens_single_decrement :
    (∀ st : FrameState,
      getA (frUpdateAliens st).1.stats "ships_left" = getA st.stats "ships_left" ∨
        ∃ n : Int, getA st.stats "ships_left" = some (PyVal.int n) ∧ 0 < n ∧
          getA (frUpdateAliens st).1.stats "ships_left" = some (PyVal.int (n - 1))) ∧
      getA (frUpdateAliens frStA).1.stats "ships_left" = some (PyVal.int 2) ∧
      (frUpdateAliens frStA).2 = some PyError.attributeError ∧
      getA (frUpdateAliens frStB).1.stats "ships_left" = some (PyVal.int 0) := by
  refine ⟨?_, frStA_frame.1, frStA_frame.2, frStB_frame⟩
  intro st
  have hstats1 := frMotion_edges_stats st
  unfold frUpdateAliens frCollisionStep
  by_cases hc : frShipCollision (frMotion (frCheckFleetEdges st))
  · rw [if_pos hc]
    rcases frShipHit_cases (frMotion (frCheckFleetEdges st)) with h1 | ⟨n, hn1, hn2, hn3, hn4⟩
    · by_cases hs : (frShipHit (frMotion (frCheckFleetEdges st))).2.isSome
      · rw [if_pos hs]
        left
        rw [h1, hstats1]
      · rw [if_neg hs]
        rcases frBottom_cases ((frShipHit (frMotion (frCheckFleetEdges st))).1) with
          hb | ⟨m, hm1, hm2, hm3⟩
        · left
          rw [hb, h1, hstats1]
        · right
          refine ⟨m, ?_, hm2, ?_⟩
          · rw [← hstats1, ← h1]
            exact hm1
          · rw [hm3, h1, hstats1, getA_setA_same]
    · have hs : (frShipHit (frMotion (frCheckFleetEdges st))).2.isSome := by
        rw [hn4]
        rfl
      rw [if_pos hs]
      right
      refine ⟨n, ?_, hn2, ?_⟩
      · rw [← hstats1]
        exact hn1
      · rw [hn3, hstats1, getA_setA_same]
  · rw [if_neg hc]
    rw [if_neg (by simp)]
    show getA (frCheckAliensBottom (frMotion (frCheckFleetEdges st))).1.stats "ships_left" =
        getA st.stats "ships_left" ∨ _
    rcases frBottom_cases (frMotion (frCheckFleetEdges st)) with hb | ⟨m, hm1, hm2, hm3⟩
    · left
      rw [hb, hstats1]
    · right
      refine ⟨m, ?_, hm2, ?_⟩
      · rw [← hstats1]
        exact hm1
      · rw [hm3, hstats1, getA_setA_same]

/-- C10: `GameStats(ai_game)` raises TypeError (the initializer is named
`__init`, so `object.__init__` rejects the argument), the only successful
result of `reset_stats` is the assignment of the name `ships_lef`, and that
assignment leaves the lookups of `ships_left`, `score`, `level` and
`high_score` exactly as they were - none of them is ever defined. -/
theorem game_stats_broken :
    gameStatsNew = Except.error PyError.typeError ∧
      (∀ o o2 : Attrs, resetStats o = Except.ok o2 →
        o2 = setA o "ships_lef" (PyVal.int 3)) ∧
      (∀ o : Attrs, ∀ a ∈ (["ships_left", "score", "level", "high_score"] : List String),
        getA (setA o "ships_lef" (PyVal.int 3)) a = getA o a) := by
  refine ⟨rfl, ?_, ?_⟩
  · intro o o2 h
    unfold resetStats at h
    split at h
    · split at h
      · next v hv =>
        have hlim : settingsAttr "ship_limit" = some (PyVal.int 3) := by decide
        obtain rfl : v = PyVal.int 3 := Option.some.inj (hv.symm.trans hlim)
        exact (Except.ok.inj h).symm
      · exact Except.noConfusion h
    · exact Except.noConfusion h
    · exact Except.noConfusion h
  · intro o a ha
    fin_cases ha <;> rfl

/-- Witness for C10: the failed construction, `reset_stats` on the object
the initializer would have produced, and the unchanged `ships_left` lookup
on the empty object. -/
theorem game_stats_broken_witness :
    statsAsReset = setA (setA [] "settings" PyVal.settingsRef) "ships_lef" (PyVal.int 3) ∧
      getA (setA [] "ships_lef" (PyVal.int 3)) "ships_left" = getA [] "ships_left" :=
  ⟨game_stats_broken.2.1 (setA [] "settings" PyVal.settingsRef) statsAsReset rfl,
    game_stats_broken.2.2 [] "ships_left" (by simp)⟩

end AlienInvasion
